import Mathlib

/-!
Shallow embedding of the `print-zpl` label pipeline (files `print.py` and
`print-plant.py`): context normalization (`prepare_template_context`),
template rendering (`render_zpl_template`), CUPS submission
(`_send_zpl_bytes_to_cups`) and the argument handling of the plant script's
`main`.  Machine integers do not occur; strings are modelled as Lean
strings (sequences of unicode code points, matching Python `str`).
-/

/-- Python string slice `s[:n]`: the first `n` characters of `s`
(all of `s` when it is shorter). -/
def pySliceTo (s : String) (n : Nat) : String :=
  String.mk (s.toList.take n)

/-- Python string slice `s[-n:]`: the last `n` characters of `s`
(all of `s` when it is shorter, matching Python's clamping). -/
def pySliceFromEnd (s : String) (n : Nat) : String :=
  String.mk (s.toList.drop (s.toList.length - n))

/-- The nested `location` object of a fetched Homebox item
(`item_details.get('location', {})` exposes only its `name` key). -/
structure ItemLocation where
  name : Option String
  deriving DecidableEq

/-- A fetched Homebox item (`item_details` in `print.py`), restricted to the
keys read by `prepare_template_context`.  `none` models an absent key,
`some ""` a key present with an empty value. -/
structure ItemDetails where
  assetId : Option String
  name : Option String
  description : Option String
  modelNumber : Option String
  serialNumber : Option String
  purchaseFrom : Option String
  purchasePrice : Option Int
  purchaseTime : Option String
  location : Option ItemLocation
  deriving DecidableEq, Inhabited

/-- Python dict truthiness for the fetched item: `if not item_details`
is taken when every key is absent (the empty dict). -/
def ItemDetails.isEmpty (d : ItemDetails) : Bool :=
  d.assetId.isNone && d.name.isNone && d.description.isNone &&
  d.modelNumber.isNone && d.serialNumber.isNone && d.purchaseFrom.isNone &&
  d.purchasePrice.isNone && d.purchaseTime.isNone && d.location.isNone

/-- The template context dictionary built by `prepare_template_context`
(`print.py` lines 208-222), one field per key of the Python dict literal. -/
structure TemplateContext where
  asset_id_tag : String
  name : String
  description : String
  model_number : String
  serial_number : String
  purchase_price : Int
  purchase_from : String
  purchase_date : String
  location_name : String
  asset_label_url : String
  summary_line : String
  owner_text : String
  raw_api_response : ItemDetails
  deriving DecidableEq, Inhabited

/-- `prepare_template_context` of `print.py` (lines 191-223).  The two
module globals read by the function (`OWNER_TEXT` and
`ASSET_LABEL_URL_PREFIX`, both from the environment) are passed as the
parameters `owner_text` and `urlPfx`.  The `none` result models the
`return {}` taken for a falsy (empty) `item_details`. -/
def prepare_template_context (owner_text urlPfx : String)
    (item_details : ItemDetails) : Option TemplateContext :=
  if item_details.isEmpty then
    none
  else
    let asset_id_tag := item_details.assetId.getD "N/A"
    let model_number := item_details.modelNumber.getD "N/A"
    let serial_number := item_details.serialNumber.getD "N/A"
    let purchase_from := item_details.purchaseFrom.getD "N/A"
    let purchase_price := item_details.purchasePrice.getD 0
    let purchase_time := item_details.purchaseTime.getD "N/A"
    let summary :=
      asset_id_tag ++ " | " ++ model_number ++ " | Serial " ++ serial_number ++
      " | Seller " ++ purchase_from ++ " | ZAR " ++ toString purchase_price ++
      " on " ++ purchase_time
    some
      { asset_id_tag := asset_id_tag
        name := item_details.name.getD "N/A"
        description := pySliceTo (item_details.description.getD "N/A") 28
        model_number := model_number
        serial_number := pySliceFromEnd serial_number 10
        purchase_price := purchase_price
        purchase_from := purchase_from
        purchase_date := purchase_time
        location_name := (item_details.location.bind ItemLocation.name).getD "N/A"
        asset_label_url := if asset_id_tag ≠ "N/A" then urlPfx ++ asset_id_tag else "N/A"
        summary_line := summary
        owner_text := owner_text
        raw_api_response := item_details }

/-- Failure classification of `render_zpl_template`: the `os.path.exists`
guard (returning `None` with a "template file not found" message) versus
the `except Exception` around `get_template`/`template.render`. -/
inductive RenderFailure where
  | templateNotFound
  | renderError
  deriving DecidableEq

/-- Oracle for the Jinja2 engine on one (template, context) pair: either the
complete rendered string, or an exception (undefined variable, syntax error,
filter failure).  Jinja2's `render` returns nothing on an exception, so no
partial output exists to model. -/
inductive EngineOutcome where
  | ok : String → EngineOutcome
  | raiseErr : EngineOutcome
  deriving DecidableEq

/-- Result of `render_zpl_template`: the returned value (the Python code
returns the rendered string or `None`; the `None` cases are distinguished
here by their `RenderFailure`), plus whether the Jinja2 engine was ever
invoked (i.e. whether control reached `env.get_template`). -/
structure RenderResult where
  output : Except RenderFailure String
  engineInvoked : Bool

/-- `render_zpl_template` of `print.py` (lines 225-248) and
`print-plant.py` (lines 50-73), identical in both files: check
`os.path.exists(template_path)` first, then run the engine under
`try/except`. -/
def render_zpl_template (fileSys : String → Bool) (template_path : String)
    (engine : EngineOutcome) : RenderResult :=
  if fileSys template_path = false then
    { output := .error .templateNotFound, engineInvoked := false }
  else
    match engine with
    | .ok s => { output := .ok s, engineInvoked := true }
    | .raiseErr => { output := .error .renderError, engineInvoked := true }

/-- Failure classification for `_send_zpl_bytes_to_cups`, following the
spec's taxonomy names; the comments give the Python manifestation. -/
inductive FailureReason where
  | connectionError    -- `cups.Connection` raises (caught by `except RuntimeError`)
  | noQueuesError      -- `if not printers: return False`
  | queueNotFoundError -- `if PRINTER_QUEUE_NAME not in printers: return False`
  | submissionError    -- `conn.printFile` raises `cups.IPPError`
  deriving DecidableEq

/-- External-world oracle for one run of `_send_zpl_bytes_to_cups`:
the outcome of each side-effecting call it makes. -/
structure CupsEnv where
  connectOk : Bool       -- `cups.Connection(host, port)` succeeds
  printers : List String -- queue names returned by `conn.getPrinters()`
  printFileOk : Bool     -- `conn.printFile(...)` succeeds
  removeOk : Bool        -- `os.remove(temp_file_path)` succeeds
  deriving DecidableEq

/-- What the `try` block of `_send_zpl_bytes_to_cups` produces before the
`finally` clause runs: the return value (with the `except` clauses already
applied, so every exception becomes `success = false`), the queue list
printed on the queue-not-found branch, and whether the temporary file was
created (`temp_file_path` is set only after `NamedTemporaryFile`). -/
structure TryResult where
  success : Bool
  failureReason : Option FailureReason
  printedQueues : Option (List String)
  tempFileCreated : Bool
  deriving DecidableEq

/-- The `try` block of `_send_zpl_bytes_to_cups` (`print.py` lines 256-301,
`print-plant.py` lines 81-126), branch by branch in source order. -/
def sendTryBlock (queueName : String) (env : CupsEnv) : TryResult :=
  if env.connectOk = false then
    { success := false, failureReason := some .connectionError,
      printedQueues := none, tempFileCreated := false }
  else if env.printers = [] then
    { success := false, failureReason := some .noQueuesError,
      printedQueues := none, tempFileCreated := false }
  else if env.printers.contains queueName = false then
    { success := false, failureReason := some .queueNotFoundError,
      printedQueues := some env.printers, tempFileCreated := false }
  else if env.printFileOk = false then
    { success := false, failureReason := some .submissionError,
      printedQueues := none, tempFileCreated := true }
  else
    { success := true, failureReason := none,
      printedQueues := none, tempFileCreated := true }

/-- Observable outcome of a whole `_send_zpl_bytes_to_cups` call, after the
`finally` clause: the returned result plus the fate of the staged file. -/
structure SubmitOutcome where
  success : Bool
  failureReason : Option FailureReason
  printedQueues : Option (List String)
  tempFileCreated : Bool
  removeAttempted : Bool
  tempFileRemains : Bool
  cleanupWarning : Bool
  deriving DecidableEq

/-- The `finally` clause of `_send_zpl_bytes_to_cups`: when
`temp_file_path` is set and the file exists, try `os.remove`; an `OSError`
there only prints a warning and changes nothing else. -/
def applyCleanup (r : TryResult) (removeOk : Bool) : SubmitOutcome :=
  if r.tempFileCreated then
    { success := r.success, failureReason := r.failureReason,
      printedQueues := r.printedQueues, tempFileCreated := true,
      removeAttempted := true, tempFileRemains := !removeOk,
      cleanupWarning := !removeOk }
  else
    { success := r.success, failureReason := r.failureReason,
      printedQueues := r.printedQueues, tempFileCreated := false,
      removeAttempted := false, tempFileRemains := false,
      cleanupWarning := false }

/-- `_send_zpl_bytes_to_cups` (`print.py` lines 250-307, `print-plant.py`
lines 75-132, identical in both): the `try` block followed by the
`finally` cleanup.  The payload bytes and job title do not influence any
branch, so they are not parameters of the model. -/
def send_zpl_bytes_to_cups (queueName : String) (env : CupsEnv) : SubmitOutcome :=
  applyCleanup (sendTryBlock queueName env) env.removeOk

/-- `PRINTER_QUEUE_NAME`, the fixed queue both scripts submit to. -/
def PRINTER_QUEUE_NAME : String := "Zebra-ZD421-203dpi-ZPL"

/-- External-world oracle for one run of `print-plant.py`'s `main`. -/
structure PlantEnv where
  fileSys : String → Bool -- `os.path.exists`
  engine : EngineOutcome  -- Jinja2 outcome on the template and built context
  cups : CupsEnv          -- CUPS oracle for `_send_zpl_bytes_to_cups`

/-- Failure classification (spec taxonomy names) for the exits of
`print-plant.py`'s `main`; the comments give the Python manifestation. -/
inductive PlantFailure where
  | argumentCountError    -- usage message and `sys.exit(1)` on a bad `sys.argv` count
  | templateNotFoundError -- `os.path.exists` guard in `main` fails, `sys.exit(1)`
  | renderError           -- `render_zpl_template` returned `None`, `sys.exit(1)`
  deriving DecidableEq

/-- Observable outcome of one run of `print-plant.py`'s `main`: the process
exit code (`0` when `main` falls off the end), the taxonomy value of the
exit taken (if any), whether any file access (`os.path.exists`, template
read, temp file) happened, whether any network access (the CUPS
connection) happened, and whether a job was submitted. -/
structure PlantRun where
  exitCode : Nat
  failure : Option PlantFailure
  fileAccessed : Bool
  networkAccessed : Bool
  submitted : Bool
  deriving DecidableEq

/-- `main` of `print-plant.py` (lines 134-176).  `argv` models `sys.argv`
(program name included, hence the count of 8 = name + template + six
fields).  `main` ignores the boolean returned by `_send_zpl_bytes_to_cups`,
so the exit code on the final branch is 0 even when submission fails.  On
the render-failure branch the template file exists (the same `fileSys` was
just consulted), so the `None` can only come from the engine; it is
classified `renderError`. -/
def plant_main (env : PlantEnv) (argv : List String) : PlantRun :=
  if argv.length ≠ 8 then
    { exitCode := 1, failure := some .argumentCountError,
      fileAccessed := false, networkAccessed := false, submitted := false }
  else
    let tpl := argv.getD 1 ""
    if env.fileSys tpl = false then
      { exitCode := 1, failure := some .templateNotFoundError,
        fileAccessed := true, networkAccessed := false, submitted := false }
    else
      match (render_zpl_template env.fileSys tpl env.engine).output with
      | .error _ =>
        { exitCode := 1, failure := some .renderError,
          fileAccessed := true, networkAccessed := false, submitted := false }
      | .ok _ =>
        { exitCode := 0, failure := none,
          fileAccessed := true, networkAccessed := true,
          submitted := (send_zpl_bytes_to_cups PRINTER_QUEUE_NAME env.cups).success }

/-- Modelled from the spec, for refinement comparison only (§4.2's policy
table): the summary line as the spec words it, built from the CONTEXT's
fields — in particular from the truncated `serial_number` the context
carries.  Compared against the `summary_line` the code actually builds. -/
def specSummaryLine (ctx : TemplateContext) : String :=
  ctx.asset_id_tag ++ " | " ++ ctx.model_number ++ " | Serial " ++
  ctx.serial_number ++ " | Seller " ++ ctx.purchase_from ++ " | ZAR " ++
  toString ctx.purchase_price ++ " on " ++ ctx.purchase_date

/-- Sample fetched item for witnesses: every key present, a 50-character
description (28 + 22) and a 15-character serial number (5 + 10). -/
def sampleItem : ItemDetails :=
  { assetId := some "000-137"
    name := some "Cordless Drill"
    description := some ("ABCDEFGHIJKLMNOPQRSTUVWXYZab" ++ "cdefghijklmnopqrstuvwx")
    modelNumber := some "MX-1"
    serialNumber := some ("ABCDE" ++ "1234567890")
    purchaseFrom := some "ShopCo"
    purchasePrice := some 100
    purchaseTime := some "2024-01-02"
    location := some { name := some "Garage" } }

/-- Sample fetched item whose `modelNumber` key is present but empty and
whose price, purchase and location keys are absent. -/
def emptyModelItem : ItemDetails :=
  { assetId := some "000-200"
    name := some "Sander"
    description := none
    modelNumber := some ""
    serialNumber := none
    purchaseFrom := none
    purchasePrice := none
    purchaseTime := none
    location := none }

/-- Sample CUPS oracle for witnesses: everything succeeds and the target
queue is enumerated. -/
def cupsAllOk : CupsEnv :=
  { connectOk := true
    printers := ["Q", "Zebra-ZD421-203dpi-ZPL"]
    printFileOk := true
    removeOk := true }

/-- Slicing a string to its first `n` characters yields `min n (length)`
characters, exactly as Python's `s[:n]` does. -/
theorem pySliceTo_length (s : String) (n : Nat) :
    (pySliceTo s n).length = min n s.length := by
  simp [pySliceTo]

/-- Slicing `d1 ++ d2` to the length of `d1` returns `d1`. -/
theorem pySliceTo_keeps_first (d1 d2 : String) (n : Nat) (h : d1.length = n) :
    pySliceTo (d1 ++ d2) n = d1 := by
  show String.mk ((d1.data ++ d2.data).take n) = d1
  rw [List.take_left' h]

/-- Slicing `s1 ++ s2` from the end by the length of `s2` returns `s2`. -/
theorem pySliceFromEnd_keeps_suffix (s1 s2 : String) (n : Nat)
    (h : s2.length = n) :
    pySliceFromEnd (s1 ++ s2) n = s2 := by
  show String.mk ((s1.data ++ s2.data).drop ((s1.data ++ s2.data).length - n)) = s2
  have hl : (s1.data ++ s2.data).length - n = s1.data.length := by
    have h2 : s2.data.length = n := h
    rw [List.length_append, h2]
    omega
  rw [hl, List.drop_left]

/-- A non-empty fetched item makes `prepare_template_context` return the
context dictionary with each field as computed by the source, spelled out. -/
theorem prepare_context_fields (o u : String) (d : ItemDetails)
    (hE : d.isEmpty = false) :
    prepare_template_context o u d = some
      { asset_id_tag := d.assetId.getD "N/A"
        name := d.name.getD "N/A"
        description := pySliceTo (d.description.getD "N/A") 28
        model_number := d.modelNumber.getD "N/A"
        serial_number := pySliceFromEnd (d.serialNumber.getD "N/A") 10
        purchase_price := d.purchasePrice.getD 0
        purchase_from := d.purchaseFrom.getD "N/A"
        purchase_date := d.purchaseTime.getD "N/A"
        location_name := (d.location.bind ItemLocation.name).getD "N/A"
        asset_label_url :=
          if d.assetId.getD "N/A" ≠ "N/A" then u ++ d.assetId.getD "N/A" else "N/A"
        summary_line :=
          d.assetId.getD "N/A" ++ " | " ++ d.modelNumber.getD "N/A" ++
          " | Serial " ++ d.serialNumber.getD "N/A" ++ " | Seller " ++
          d.purchaseFrom.getD "N/A" ++ " | ZAR " ++
          toString (d.purchasePrice.getD 0) ++ " on " ++ d.purchaseTime.getD "N/A"
        owner_text := o
        raw_api_response := d } := by
  unfold prepare_template_context
  rw [if_neg (by simp [hE])]

/-- A `some` result from `prepare_template_context` means the item was not
the empty dict. -/
theorem prepare_some_not_empty (o u : String) (d : ItemDetails)
    (ctx : TemplateContext)
    (hctx : prepare_template_context o u d = some ctx) : d.isEmpty = false := by
  cases hE : d.isEmpty
  · rfl
  · rw [prepare_template_context, if_pos hE] at hctx
    exact absurd hctx (by simp)

/-- Any context produced by `prepare_template_context` is the spelled-out
dictionary of `prepare_context_fields`. -/
theorem prepare_eq_of_some (o u : String) (d : ItemDetails)
    (ctx : TemplateContext)
    (hctx : prepare_template_context o u d = some ctx) :
    ctx = { asset_id_tag := d.assetId.getD "N/A"
            name := d.name.getD "N/A"
            description := pySliceTo (d.description.getD "N/A") 28
            model_number := d.modelNumber.getD "N/A"
            serial_number := pySliceFromEnd (d.serialNumber.getD "N/A") 10
            purchase_price := d.purchasePrice.getD 0
            purchase_from := d.purchaseFrom.getD "N/A"
            purchase_date := d.purchaseTime.getD "N/A"
            location_name := (d.location.bind ItemLocation.name).getD "N/A"
            asset_label_url :=
              if d.assetId.getD "N/A" ≠ "N/A" then u ++ d.assetId.getD "N/A" else "N/A"
            summary_line :=
              d.assetId.getD "N/A" ++ " | " ++ d.modelNumber.getD "N/A" ++
              " | Serial " ++ d.serialNumber.getD "N/A" ++ " | Seller " ++
              d.purchaseFrom.getD "N/A" ++ " | ZAR " ++
              toString (d.purchasePrice.getD 0) ++ " on " ++ d.purchaseTime.getD "N/A"
            owner_text := o
            raw_api_response := d } := by
  have hE := prepare_some_not_empty o u d ctx hctx
  have hfields := prepare_context_fields o u d hE
  rw [hctx] at hfields
  exact Option.some.inj hfields

/-- C1: in remote-fetch mode the normalizer truncates `description` to its
first 28 characters and keeps only the last 10 characters of the serial
number: a record whose description has 50 characters yields a context
description of exactly 28 characters (its first 28), and a record whose
serial number has 15 characters yields a context `serial_number` equal to
exactly its last 10 characters. -/
theorem prepare_context_truncation (o u : String) (d : ItemDetails)
    (ctx : TemplateContext)
    (hctx : prepare_template_context o u d = some ctx) :
    (∀ desc : String, d.description = some desc → desc.length = 50 →
      ctx.description.length = 28) ∧
    (∀ d1 d2 : String, d.description = some (d1 ++ d2) → d1.length = 28 →
      ctx.description = d1) ∧
    (∀ s1 s2 : String, d.serialNumber = some (s1 ++ s2) → s1.length = 5 →
      s2.length = 10 → ctx.serial_number = s2) := by
  have h := prepare_eq_of_some o u d ctx hctx
  subst h
  refine ⟨?_, ?_, ?_⟩
  · intro desc hd hlen
    simp only [hd, Option.getD_some]
    rw [pySliceTo_length, hlen]
    decide
  · intro d1 d2 hd h1
    simp only [hd, Option.getD_some]
    exact pySliceTo_keeps_first d1 d2 28 h1
  · intro s1 s2 hs h1 h2
    simp only [hs, Option.getD_some]
    exact pySliceFromEnd_keeps_suffix s1 s2 10 h2

/-- C1 witness: the sample item's 50-character description and
15-character serial number, through `prepare_template_context`. -/
theorem prepare_context_truncation_witness :
    ((prepare_template_context "own" "https://lbl/" sampleItem).getD
      default).description.length = 28 ∧
    ((prepare_template_context "own" "https://lbl/" sampleItem).getD
      default).serial_number = "1234567890" := by
  have h := prepare_context_truncation "own" "https://lbl/" sampleItem
    ((prepare_template_context "own" "https://lbl/" sampleItem).getD default) rfl
  exact ⟨h.1 _ rfl (by decide),
         h.2.2 "ABCDE" "1234567890" rfl (by decide) (by decide)⟩

/-- C2 counterexample: a record whose `modelNumber` key is present but
empty does NOT get the "N/A" sentinel — `dict.get(key, default)` only
defaults on an absent key, so the empty string reaches the context. -/
theorem prepare_context_empty_field_not_defaulted :
    (prepare_template_context "own" "https://lbl/" emptyModelItem).map
      TemplateContext.model_number = some "" ∧
    (prepare_template_context "own" "https://lbl/" emptyModelItem).map
      TemplateContext.model_number ≠ some "N/A" := by
  constructor
  · rfl
  · decide

/-- C2 (amended): building the context never raises — every non-empty
fetched record yields a context — and each optional field
(`model_number`, `purchase_from`, `purchase_date`, `location_name`)
resolves to the "N/A" sentinel whenever its key is ABSENT from the record;
a key that is present but empty passes its empty value through into the
template instead. -/
theorem prepare_context_absent_field_defaults (o u : String)
    (d : ItemDetails) (hE : d.isEmpty = false) :
    ∃ ctx, prepare_template_context o u d = some ctx ∧
      (d.modelNumber = none → ctx.model_number = "N/A") ∧
      (d.purchaseFrom = none → ctx.purchase_from = "N/A") ∧
      (d.purchaseTime = none → ctx.purchase_date = "N/A") ∧
      (d.location = none → ctx.location_name = "N/A") ∧
      (∀ loc, d.location = some loc → loc.name = none →
        ctx.location_name = "N/A") ∧
      (d.modelNumber = some "" → ctx.model_number = "") ∧
      (d.purchaseFrom = some "" → ctx.purchase_from = "") := by
  refine ⟨_, prepare_context_fields o u d hE, ?_, ?_, ?_, ?_, ?_, ?_, ?_⟩
  · intro h; simp [h]
  · intro h; simp [h]
  · intro h; simp [h]
  · intro h; simp [h]
  · intro loc h hn; simp [h, hn]
  · intro h; simp [h]
  · intro h; simp [h]

/-- C2 witness: the amended statement at the sample record with absent
price/purchase/location keys and an empty `modelNumber`. -/
theorem prepare_context_absent_field_defaults_witness :
    ∃ ctx, prepare_template_context "own" "https://lbl/" emptyModelItem = some ctx ∧
      (emptyModelItem.modelNumber = none → ctx.model_number = "N/A") ∧
      (emptyModelItem.purchaseFrom = none → ctx.purchase_from = "N/A") ∧
      (emptyModelItem.purchaseTime = none → ctx.purchase_date = "N/A") ∧
      (emptyModelItem.location = none → ctx.location_name = "N/A") ∧
      (∀ loc, emptyModelItem.location = some loc → loc.name = none →
        ctx.location_name = "N/A") ∧
      (emptyModelItem.modelNumber = some "" → ctx.model_number = "") ∧
      (emptyModelItem.purchaseFrom = some "" → ctx.purchase_from = "") :=
  prepare_context_absent_field_defaults "own" "https://lbl/" emptyModelItem rfl

/-- C3 counterexample: at a record with a 15-character serial number, the
`summary_line` the code builds differs from the spec's wording of it (the
concatenation using the TRUNCATED serial number), because the f-string is
built from the local `serial_number` before the `[-10:]` slice. -/
theorem summary_line_not_spec_concatenation :
    (prepare_template_context "own" "https://lbl/" sampleItem).map
      TemplateContext.summary_line ≠
    (prepare_template_context "own" "https://lbl/" sampleItem).map
      specSummaryLine := by
  decide

/-- C3 (amended): `summary_line` is the delimited concatenation of the
asset tag, the model number, the serial number AS FETCHED (untruncated),
the seller, the price, and the purchase date. -/
theorem summary_line_uses_untruncated_serial (o u : String)
    (d : ItemDetails) (ctx : TemplateContext)
    (hctx : prepare_template_context o u d = some ctx) :
    ctx.summary_line =
      ctx.asset_id_tag ++ " | " ++ ctx.model_number ++ " | Serial " ++
      d.serialNumber.getD "N/A" ++ " | Seller " ++ ctx.purchase_from ++
      " | ZAR " ++ toString ctx.purchase_price ++ " on " ++
      ctx.purchase_date := by
  have h := prepare_eq_of_some o u d ctx hctx
  subst h
  rfl

/-- C3 witness: the amended concatenation at the sample record. -/
theorem summary_line_uses_untruncated_serial_witness :
    ((prepare_template_context "own" "https://lbl/" sampleItem).getD
        default).summary_line =
      ((prepare_template_context "own" "https://lbl/" sampleItem).getD
        default).asset_id_tag ++ " | " ++
      ((prepare_template_context "own" "https://lbl/" sampleItem).getD
        default).model_number ++ " | Serial " ++
      sampleItem.serialNumber.getD "N/A" ++ " | Seller " ++
      ((prepare_template_context "own" "https://lbl/" sampleItem).getD
        default).purchase_from ++ " | ZAR " ++
      toString ((prepare_template_context "own" "https://lbl/" sampleItem).getD
        default).purchase_price ++ " on " ++
      ((prepare_template_context "own" "https://lbl/" sampleItem).getD
        default).purchase_date :=
  summary_line_uses_untruncated_serial "own" "https://lbl/" sampleItem
    ((prepare_template_context "own" "https://lbl/" sampleItem).getD default) rfl

/-- C9: every non-empty fetched record yields a context that additionally
binds `owner_text` to the configured owner string and `raw_api_response`
to the complete, unmodified fetched record. -/
theorem prepare_context_owner_and_raw (o u : String) (d : ItemDetails)
    (hE : d.isEmpty = false) :
    ∃ ctx, prepare_template_context o u d = some ctx ∧
      ctx.owner_text = o ∧ ctx.raw_api_response = d :=
  ⟨_, prepare_context_fields o u d hE, rfl, rfl⟩

/-- C9 witness: `owner_text` and `raw_api_response` at the sample record. -/
theorem prepare_context_owner_and_raw_witness :
    ∃ ctx, prepare_template_context "own" "https://lbl/" sampleItem = some ctx ∧
      ctx.owner_text = "own" ∧ ctx.raw_api_response = sampleItem :=
  prepare_context_owner_and_raw "own" "https://lbl/" sampleItem rfl

/-- C10: when the fetched record has no `purchasePrice` key, the context's
`purchase_price` defaults to the number 0 (not the "N/A" sentinel the other
optional fields use), and the derived summary line renders its price
segment with that 0 ("ZAR 0"). -/
theorem purchase_price_defaults_to_zero (o u : String) (d : ItemDetails)
    (ctx : TemplateContext)
    (hctx : prepare_template_context o u d = some ctx)
    (hp : d.purchasePrice = none) :
    ctx.purchase_price = 0 ∧
    toString ctx.purchase_price = "0" ∧
    ctx.summary_line =
      ctx.asset_id_tag ++ " | " ++ ctx.model_number ++ " | Serial " ++
      d.serialNumber.getD "N/A" ++ " | Seller " ++ ctx.purchase_from ++
      " | ZAR " ++ toString ctx.purchase_price ++ " on " ++
      ctx.purchase_date := by
  have h := prepare_eq_of_some o u d ctx hctx
  subst h
  refine ⟨by simp [hp], ?_, rfl⟩
  simp only [hp, Option.getD_none]
  rfl

/-- C10 witness: the record with an absent `purchasePrice` key. -/
theorem purchase_price_defaults_to_zero_witness :
    ((prepare_template_context "own" "https://lbl/" emptyModelItem).getD
        default).purchase_price = 0 ∧
    toString ((prepare_template_context "own" "https://lbl/" emptyModelItem).getD
        default).purchase_price = "0" ∧
    ((prepare_template_context "own" "https://lbl/" emptyModelItem).getD
        default).summary_line =
      ((prepare_template_context "own" "https://lbl/" emptyModelItem).getD
        default).asset_id_tag ++ " | " ++
      ((prepare_template_context "own" "https://lbl/" emptyModelItem).getD
        default).model_number ++ " | Serial " ++
      emptyModelItem.serialNumber.getD "N/A" ++ " | Seller " ++
      ((prepare_template_context "own" "https://lbl/" emptyModelItem).getD
        default).purchase_from ++ " | ZAR " ++
      toString ((prepare_template_context "own" "https://lbl/" emptyModelItem).getD
        default).purchase_price ++ " on " ++
      ((prepare_template_context "own" "https://lbl/" emptyModelItem).getD
        default).purchase_date :=
  purchase_price_defaults_to_zero "own" "https://lbl/" emptyModelItem
    ((prepare_template_context "own" "https://lbl/" emptyModelItem).getD default)
    rfl rfl

/-- The `finally` clause attempts removal exactly when the staged file was
created. -/
theorem applyCleanup_removeAttempted (r : TryResult) (b : Bool) :
    (applyCleanup r b).removeAttempted = r.tempFileCreated := by
  unfold applyCleanup
  split <;> simp_all

/-- The `finally` clause never changes whether the staged file was created. -/
theorem applyCleanup_tempFileCreated (r : TryResult) (b : Bool) :
    (applyCleanup r b).tempFileCreated = r.tempFileCreated := by
  unfold applyCleanup
  split <;> simp_all

/-- The `finally` clause never changes the returned success flag. -/
theorem applyCleanup_success (r : TryResult) (b : Bool) :
    (applyCleanup r b).success = r.success := by
  unfold applyCleanup
  split <;> rfl

/-- The `finally` clause never changes the failure classification. -/
theorem applyCleanup_failureReason (r : TryResult) (b : Bool) :
    (applyCleanup r b).failureReason = r.failureReason := by
  unfold applyCleanup
  split <;> rfl

/-- The `finally` clause never changes the printed queue list. -/
theorem applyCleanup_printedQueues (r : TryResult) (b : Bool) :
    (applyCleanup r b).printedQueues = r.printedQueues := by
  unfold applyCleanup
  split <;> rfl

/-- The staged file remains after the call only when it was created and
`os.remove` failed. -/
theorem applyCleanup_tempFileRemains (r : TryResult) (b : Bool) :
    (applyCleanup r b).tempFileRemains = (r.tempFileCreated && !b) := by
  unfold applyCleanup
  split <;> simp_all

/-- The cleanup warning fires exactly when the file was created and
`os.remove` failed. -/
theorem applyCleanup_cleanupWarning (r : TryResult) (b : Bool) :
    (applyCleanup r b).cleanupWarning = (r.tempFileCreated && !b) := by
  unfold applyCleanup
  split <;> simp_all

/-- The `try` block never reads the `os.remove` outcome. -/
theorem sendTryBlock_removeOk_irrel (q : String) (env : CupsEnv) (b : Bool) :
    sendTryBlock q { env with removeOk := b } = sendTryBlock q env := rfl

/-- C4: the submission service attempts to release the staged temporary
file exactly once whenever it was created (and never otherwise); when the
release succeeds the file does not exist after the call returns; the
returned result (success flag and failure classification) is identical
whatever the release outcome; and a failed release on a created file is
logged as a (non-fatal) cleanup warning. -/
theorem send_zpl_cleanup_exactly_once (q : String) (env : CupsEnv) (b : Bool) :
    ((send_zpl_bytes_to_cups q env).removeAttempted =
      (send_zpl_bytes_to_cups q env).tempFileCreated) ∧
    (env.removeOk = true → (send_zpl_bytes_to_cups q env).tempFileRemains = false) ∧
    ((send_zpl_bytes_to_cups q { env with removeOk := b }).success =
      (send_zpl_bytes_to_cups q env).success ∧
     (send_zpl_bytes_to_cups q { env with removeOk := b }).failureReason =
      (send_zpl_bytes_to_cups q env).failureReason) ∧
    ((send_zpl_bytes_to_cups q env).tempFileCreated = true →
      env.removeOk = false →
      (send_zpl_bytes_to_cups q env).cleanupWarning = true) := by
  unfold send_zpl_bytes_to_cups
  refine ⟨?_, ?_, ⟨?_, ?_⟩, ?_⟩
  · rw [applyCleanup_removeAttempted, applyCleanup_tempFileCreated]
  · intro h
    rw [applyCleanup_tempFileRemains, h]
    simp
  · rw [applyCleanup_success, applyCleanup_success, sendTryBlock_removeOk_irrel]
  · rw [applyCleanup_failureReason, applyCleanup_failureReason,
      sendTryBlock_removeOk_irrel]
  · intro hc hr
    rw [applyCleanup_tempFileCreated] at hc
    rw [applyCleanup_cleanupWarning, hc, hr]
    rfl

/-- C4 witness: the cleanup contract evaluated on concrete oracles — with
removal succeeding the file is gone, the result is independent of the
removal outcome, and with removal failing the warning fires. -/
theorem send_zpl_cleanup_exactly_once_witness :
    ((send_zpl_bytes_to_cups "Q" cupsAllOk).removeAttempted =
      (send_zpl_bytes_to_cups "Q" cupsAllOk).tempFileCreated) ∧
    (send_zpl_bytes_to_cups "Q" cupsAllOk).tempFileRemains = false ∧
    (send_zpl_bytes_to_cups "Q" { cupsAllOk with removeOk := false }).success =
      (send_zpl_bytes_to_cups "Q" cupsAllOk).success ∧
    (send_zpl_bytes_to_cups "Q"
      { cupsAllOk with removeOk := false }).cleanupWarning = true := by
  obtain ⟨h1, h2, h3, _⟩ := send_zpl_cleanup_exactly_once "Q" cupsAllOk false
  obtain ⟨_, _, _, h4⟩ :=
    send_zpl_cleanup_exactly_once "Q" { cupsAllOk with removeOk := false } true
  exact ⟨h1, h2 rfl, h3.1, h4 (by decide) rfl⟩

/-- C6: with the connection up, an empty queue enumeration makes the
submission fail with `NoQueuesError`, and a non-empty enumeration that
does not contain the target queue makes it fail with `QueueNotFoundError`
while surfacing the full enumerated queue list verbatim. -/
theorem send_zpl_queue_errors (q : String) (env : CupsEnv)
    (hc : env.connectOk = true) :
    (env.printers = [] →
      (send_zpl_bytes_to_cups q env).success = false ∧
      (send_zpl_bytes_to_cups q env).failureReason = some .noQueuesError) ∧
    (env.printers ≠ [] → env.printers.contains q = false →
      (send_zpl_bytes_to_cups q env).success = false ∧
      (send_zpl_bytes_to_cups q env).failureReason = some .queueNotFoundError ∧
      (send_zpl_bytes_to_cups q env).printedQueues = some env.printers) := by
  constructor
  · intro hp
    unfold send_zpl_bytes_to_cups sendTryBlock
    rw [hc, hp]
    simp [applyCleanup]
  · intro hne hq
    unfold send_zpl_bytes_to_cups sendTryBlock
    rw [hc, hq]
    simp [applyCleanup, hne]

/-- C6 witness: both queue-error branches on concrete enumerations (the
target "Missing-Queue" absent from a two-queue enumeration, and an empty
enumeration). -/
theorem send_zpl_queue_errors_witness :
    ((send_zpl_bytes_to_cups "Missing-Queue" cupsAllOk).success = false ∧
     (send_zpl_bytes_to_cups "Missing-Queue" cupsAllOk).failureReason =
       some .queueNotFoundError ∧
     (send_zpl_bytes_to_cups "Missing-Queue" cupsAllOk).printedQueues =
       some ["Q", "Zebra-ZD421-203dpi-ZPL"]) ∧
    ((send_zpl_bytes_to_cups "Q" { cupsAllOk with printers := [] }).success = false ∧
     (send_zpl_bytes_to_cups "Q" { cupsAllOk with printers := [] }).failureReason =
       some .noQueuesError) := by
  obtain ⟨_, h2⟩ := send_zpl_queue_errors "Missing-Queue" cupsAllOk rfl
  obtain ⟨h3, _⟩ := send_zpl_queue_errors "Q" { cupsAllOk with printers := [] } rfl
  exact ⟨h2 (by decide) (by decide), h3 rfl⟩

/-- C7: a connection failure to the spooler is terminal — the run fails
with the connection error, the staged temporary file is never created, and
no removal is ever attempted. -/
theorem send_zpl_connect_failure_never_stages (q : String) (env : CupsEnv)
    (hc : env.connectOk = false) :
    (send_zpl_bytes_to_cups q env).tempFileCreated = false ∧
    (send_zpl_bytes_to_cups q env).success = false ∧
    (send_zpl_bytes_to_cups q env).failureReason = some .connectionError ∧
    (send_zpl_bytes_to_cups q env).removeAttempted = false := by
  unfold send_zpl_bytes_to_cups sendTryBlock
  rw [hc]
  simp [applyCleanup]

/-- C7 witness: a failing connection on a concrete oracle. -/
theorem send_zpl_connect_failure_never_stages_witness :
    (send_zpl_bytes_to_cups "Q" { cupsAllOk with connectOk := false }).tempFileCreated
        = false ∧
    (send_zpl_bytes_to_cups "Q" { cupsAllOk with connectOk := false }).success
        = false ∧
    (send_zpl_bytes_to_cups "Q" { cupsAllOk with connectOk := false }).failureReason
        = some .connectionError ∧
    (send_zpl_bytes_to_cups "Q" { cupsAllOk with connectOk := false }).removeAttempted
        = false :=
  send_zpl_connect_failure_never_stages "Q" { cupsAllOk with connectOk := false } rfl

/-- C8: the renderer checks template existence first — an absent template
yields the template-not-found failure with the engine never invoked — any
engine failure yields the render error with no output, and any produced
output is exactly the engine's complete output (all-or-nothing). -/
theorem render_template_existence_first_all_or_nothing
    (fileSys : String → Bool) (p : String) (engine : EngineOutcome) :
    (fileSys p = false →
      (render_zpl_template fileSys p engine).output = .error .templateNotFound ∧
      (render_zpl_template fileSys p engine).engineInvoked = false) ∧
    (fileSys p = true → engine = .raiseErr →
      (render_zpl_template fileSys p engine).output = .error .renderError) ∧
    (∀ s : String, (render_zpl_template fileSys p engine).output = .ok s →
      engine = .ok s) := by
  refine ⟨?_, ?_, ?_⟩
  · intro h
    simp [render_zpl_template, h]
  · intro h he
    simp [render_zpl_template, h, he]
  · intro s hs
    unfold render_zpl_template at hs
    by_cases h : fileSys p = false
    · rw [if_pos h] at hs
      exact absurd hs (by simp)
    · rw [if_neg h] at hs
      cases engine with
      | ok t => simp_all
      | raiseErr => exact absurd hs (by simp)

/-- C8 witness: the three renderer facts on concrete file systems and
engine outcomes. -/
theorem render_template_existence_first_all_or_nothing_witness :
    ((render_zpl_template (fun _ => false) "label.zpl.j2" (.ok "XA")).output =
        .error .templateNotFound ∧
     (render_zpl_template (fun _ => false) "label.zpl.j2" (.ok "XA")).engineInvoked =
        false) ∧
    (render_zpl_template (fun _ => true) "label.zpl.j2" .raiseErr).output =
        .error .renderError ∧
    EngineOutcome.ok "XA" = EngineOutcome.ok "XA" := by
  obtain ⟨h1, _, _⟩ := render_template_existence_first_all_or_nothing
    (fun _ => false) "label.zpl.j2" (.ok "XA")
  obtain ⟨_, h2, h3⟩ := render_template_existence_first_all_or_nothing
    (fun _ => true) "label.zpl.j2" .raiseErr
  obtain ⟨_, _, h4⟩ := render_template_existence_first_all_or_nothing
    (fun _ => true) "label.zpl.j2" (.ok "XA")
  exact ⟨h1 rfl, h2 rfl rfl, h4 "XA" rfl⟩

/-- C5: in literal mode an invocation whose `sys.argv` count differs from
the fixed count of 8 (program name, template path, six field values) exits
with the argument-count failure before any file or network access. -/
theorem plant_main_arg_count_guard (env : PlantEnv) (argv : List String)
    (h : argv.length ≠ 8) :
    plant_main env argv =
      { exitCode := 1, failure := some .argumentCountError,
        fileAccessed := false, networkAccessed := false, submitted := false } := by
  unfold plant_main
  rw [if_pos h]

/-- C5 witness: a two-argument invocation. -/
theorem plant_main_arg_count_guard_witness :
    plant_main ⟨fun _ => false, .raiseErr, cupsAllOk⟩ ["print-plant.py", "tpl.zpl"] =
      { exitCode := 1, failure := some .argumentCountError,
        fileAccessed := false, networkAccessed := false, submitted := false } :=
  plant_main_arg_count_guard ⟨fun _ => false, .raiseErr, cupsAllOk⟩
    ["print-plant.py", "tpl.zpl"] (by decide)
